import Mathlib

/-!
Shallow embedding of the process-supervision core of
`src/windows/main.py` (RocketMan tunnel service).

The Python code is stateful and effectful; here every operation is a pure
function from an explicit state plus an *environment* describing the OS
effects that occur during the call (filesystem existence checks, the spawn
outcome, liveness polls of a pid, the probe HTTP result, exceptions raised
by `terminate`/`kill`/`wait`).  A liveness oracle `alive : Nat → Bool`
stands for what `Popen.poll()` reports for a given pid at that moment;
fallible OS calls are `Except String _` values (the `String` is the text of
the raised exception, i.e. Python's `str(e)`).
-/

/-- A spawned child handle (`subprocess.Popen` result): its pid and the text
that reading its stderr pipe would yield. -/
structure Proc where
  pid : Nat
  stderrOut : String
deriving DecidableEq

/-- The fields of `TunnelManager` other than the lock: `self.process`,
`self.singbox_path`, `self.config_path` (all `None` in `__init__`). -/
structure TMState where
  process : Option Proc
  singbox_path : Option String
  config_path : Option String
deriving DecidableEq

/-- The JSON result dictionaries returned by the `TunnelManager`
operations, one constructor per distinct `status` shape. -/
inductive Result where
  | already_running (pid : Nat)
  | started (pid : Nat) (singbox_path : String) (config_path : String)
  | error (message : String)
  | not_running
  | stopped
  | running (pid : Nat) (singbox_path : Option String) (config_path : Option String)
deriving DecidableEq

/-- `self.process.pid`; only ever evaluated when a handle is present
(Python would raise `AttributeError` on `None`). -/
def pidOf : Option Proc → Nat
  | some p => p.pid
  | none => 0

/-- `os.path.join("C:\\Users", username, "AppData", "Roaming", appname, ".sing-box")`
on Windows (joined with backslashes). -/
def base_path (username appname : String) : String :=
  "C:\\Users\\" ++ username ++ "\\AppData\\Roaming\\" ++ appname ++ "\\.sing-box"

/-- Derived executable path `os.path.join(base_path, "sing-box.exe")`. -/
def singbox_path_of (username appname : String) : String :=
  base_path username appname ++ "\\sing-box.exe"

/-- Derived configuration path `os.path.join(base_path, "sing-box-auto.json")`. -/
def config_path_of (username appname : String) : String :=
  base_path username appname ++ "\\sing-box-auto.json"

namespace TunnelManager

/-- `TunnelManager.__init__`: no process, no paths. -/
def init : TMState := ⟨none, none, none⟩

/-- `TunnelManager.is_running`:
`self.process is not None and self.process.poll() is None`,
where `alive pid = true` means `poll()` returns `None` (still running). -/
def is_running (alive : Nat → Bool) (s : TMState) : Bool :=
  match s.process with
  | some p => alive p.pid
  | none => false

/-- OS effects observed by one `start` call: the entry liveness poll, the
`os.path.exists` behaviour, the `subprocess.Popen` outcome (a handle, or a
raised exception), and the result of the liveness re-check after the 0.5s
grace sleep (`true` = `poll()` still `None`). -/
structure StartEnv where
  alive : Nat → Bool
  path_exists : String → Bool
  spawn : Except String Proc
  aliveAfterGrace : Bool

/-- `TunnelManager.start(username, appname)`, body executed under `self.lock`.
The path fields are assigned before the existence checks, exactly as in the
source; the spawned handle is only stored once `Popen` has returned. -/
def start (env : StartEnv) (s : TMState) (username appname : String) : Result × TMState :=
  if is_running env.alive s then
    (.already_running (pidOf s.process), s)
  else if env.path_exists (singbox_path_of username appname) = false then
    (.error ("sing-box not found: " ++ singbox_path_of username appname),
     { s with singbox_path := some (singbox_path_of username appname),
              config_path := some (config_path_of username appname) })
  else if env.path_exists (config_path_of username appname) = false then
    (.error ("Config not found: " ++ config_path_of username appname),
     { s with singbox_path := some (singbox_path_of username appname),
              config_path := some (config_path_of username appname) })
  else
    match env.spawn with
    | .error e =>
        (.error e,
         { s with singbox_path := some (singbox_path_of username appname),
                  config_path := some (config_path_of username appname) })
    | .ok p =>
        if env.aliveAfterGrace = false then
          (.error ("Process exited immediately. Error: " ++ p.stderrOut.take 200),
           { s with process := some p,
                    singbox_path := some (singbox_path_of username appname),
                    config_path := some (config_path_of username appname) })
        else
          (.started p.pid (singbox_path_of username appname) (config_path_of username appname),
           { s with process := some p,
                    singbox_path := some (singbox_path_of username appname),
                    config_path := some (config_path_of username appname) })

/-- OS effects observed by one `stop` call: the entry liveness poll, the
outcome of `terminate()`, the sequence of polls made during (and right
after) the 50 × 0.1s wait loop (`pollAlive i = true` means the i-th poll
returns `None`), and the outcomes of `kill()` and `wait()`. -/
structure StopEnv where
  alive : Nat → Bool
  terminateRes : Except String Unit
  pollAlive : Nat → Bool
  killRes : Except String Unit
  waitRes : Except String Unit

/-- Index of the poll made by the `if self.process.poll() is None` check
after the wait loop: the loop breaks at the first of its (at most 50) polls
that reports exit, and the final check is the next poll in the sequence. -/
def final_poll_index (pollAlive : Nat → Bool) : Nat :=
  match (List.range 50).find? (fun i => pollAlive i = false) with
  | some i => i + 1
  | none => 50

/-- `TunnelManager.stop()`, body executed under `self.lock`. -/
def stop (env : StopEnv) (s : TMState) : Result × TMState :=
  if is_running env.alive s = false then
    (.not_running, s)
  else
    match env.terminateRes with
    | .error e => (.error e, { s with process := none })
    | .ok _ =>
        if env.pollAlive (final_poll_index env.pollAlive) then
          match env.killRes with
          | .error e => (.error e, { s with process := none })
          | .ok _ =>
              match env.waitRes with
              | .error e => (.error e, { s with process := none })
              | .ok _ => (.stopped, { s with process := none })
        else
          (.stopped, { s with process := none })

/-- `TunnelManager.get_status()`: liveness re-verified at call time. -/
def get_status (alive : Nat → Bool) (s : TMState) : Result :=
  if is_running alive s then
    .running (pidOf s.process) s.singbox_path s.config_path
  else
    .stopped

end TunnelManager

/-- The fields of `AppMonitor` relevant to the probe loop: its own running
flag, the consecutive-failure counter, and `max_failures` (3 in
`__init__`). -/
structure MonitorState where
  is_running : Bool
  consecutive_failures : Nat
  max_failures : Nat
deriving DecidableEq

namespace AppMonitor

/-- `AppMonitor.__init__` counter/threshold fields. -/
def init : MonitorState := ⟨false, 0, 3⟩

/-- `AppMonitor.start`: returns immediately if already running, otherwise
sets the running flag and resets the failure counter before launching the
loop thread. -/
def start (m : MonitorState) : MonitorState :=
  if m.is_running then m
  else { m with is_running := true, consecutive_failures := 0 }

/-- Python `str.strip()` on a character list: drop whitespace from both ends. -/
def pyStrip (l : List Char) : List Char :=
  ((l.dropWhile Char.isWhitespace).reverse.dropWhile Char.isWhitespace).reverse

/-- Python `str.lower()` (ASCII case mapping). -/
def pyLower (l : List Char) : List Char := l.map Char.toLower

/-- Python's `needle in hay` substring test. -/
def pyInStr (needle hay : List Char) : Bool :=
  hay.tails.any (fun t => needle.isPrefixOf t)

/-- `AppMonitor._check_app_alive`: the probe argument is the outcome of the
HTTP GET (`.ok body`, or `.error _` for any raised exception — URL error,
HTTP error, timeout).  Success is
`data.strip().lower() == 'pong' or 'pong' in data.lower()`; every exception
path returns `False`. -/
def check_app_alive (probe : Except String String) : Bool :=
  match probe with
  | .error _ => false
  | .ok data =>
      (pyLower (pyStrip data.toList) == "pong".toList) ||
        pyInStr "pong".toList (pyLower data.toList)

/-- Effects observed by one iteration of `AppMonitor._monitor_loop`: the
liveness oracle for `tunnel_manager.is_running()`, the HTTP probe outcome,
and the effects of the `tunnel_manager.stop()` call should it be made. -/
structure CycleEnv where
  alive : Nat → Bool
  probe : Except String String
  stopEnv : TunnelManager.StopEnv

/-- One iteration of `AppMonitor._monitor_loop` (threshold logic).  Returns
the tunnel state, the monitor state, and how many `stop()` invocations the
iteration made (0 or 1).  The `stop` result is logged and discarded; the
counter is reset to 0 regardless of it. -/
def monitor_cycle (env : CycleEnv) (tm : TMState) (m : MonitorState) :
    TMState × MonitorState × Nat :=
  if TunnelManager.is_running env.alive tm then
    if check_app_alive env.probe then
      (tm, { m with consecutive_failures := 0 }, 0)
    else
      if m.max_failures ≤ m.consecutive_failures + 1 then
        (((TunnelManager.stop env.stopEnv tm).2), { m with consecutive_failures := 0 }, 1)
      else
        (tm, { m with consecutive_failures := m.consecutive_failures + 1 }, 0)
  else
    (tm, m, 0)

/-- A run of consecutive monitor-loop iterations; the `Nat` accumulates the
total number of `stop()` invocations. -/
def run_cycles (envs : List CycleEnv) (tm : TMState) (m : MonitorState) :
    TMState × MonitorState × Nat :=
  match envs with
  | [] => (tm, m, 0)
  | e :: rest =>
      let r1 := monitor_cycle e tm m
      let r2 := run_cycles rest r1.1 r1.2.1
      (r2.1, r2.2.1, r1.2.2 + r2.2.2)

end AppMonitor

/-- The JSON bodies sent by `ControlHTTPHandler`: a supervisor result
passed through, an `{"error": ...}` object, or the `/ping` body. -/
inductive Body where
  | result (r : Result)
  | apiError (msg : String)
  | pingOk
deriving DecidableEq

/-- Python truthiness of `query_params.get(..., [None])[0]`: `None` or the
empty string is falsy. -/
def pyFalsyStr : Option String → Bool
  | none => true
  | some s => s == ""

namespace ControlHTTPHandler

/-- Effects available to one `do_GET` request: the environments of the
supervisor calls it may delegate to. -/
structure GetEnv where
  startEnv : TunnelManager.StartEnv
  stopEnv : TunnelManager.StopEnv
  statusAlive : Nat → Bool

/-- `ControlHTTPHandler.do_GET`: route dispatch on the parsed path, with
the `/start` parameter validation.  Returns the HTTP status code and body,
the tunnel-manager state after the request, and whether
`tunnel_manager.start` was invoked. -/
def do_GET (env : GetEnv) (path : String) (username appname : Option String)
    (tm : TMState) : (Nat × Body) × TMState × Bool :=
  if path == "/start" then
    if pyFalsyStr username || pyFalsyStr appname then
      ((400, .apiError "Missing required parameters: username, appname"), tm, false)
    else
      let r := TunnelManager.start env.startEnv tm (username.getD "") (appname.getD "")
      ((200, .result r.1), r.2, true)
  else if path == "/stop" then
    let r := TunnelManager.stop env.stopEnv tm
    ((200, .result r.1), r.2, false)
  else if path == "/status" then
    ((200, .result (TunnelManager.get_status env.statusAlive tm)), tm, false)
  else if path == "/ping" then
    ((200, .pingOk), tm, false)
  else
    ((404, .apiError "Not found"), tm, false)

end ControlHTTPHandler

/-! ## Helper lemmas -/

/-- `is_running` depends only on the `process` field; if the state is not
running under one liveness oracle, it is not running under any oracle that
reports alive only pids the first one also reported alive (a dead process
stays dead). -/
theorem is_running_false_mono (alive alive' : Nat → Bool) (s : TMState)
    (hmono : ∀ pid, alive' pid = true → alive pid = true)
    (h : TunnelManager.is_running alive s = false) :
    TunnelManager.is_running alive' s = false := by
  cases hp : s.process with
  | none => simp [TunnelManager.is_running, hp]
  | some p =>
      have h' : alive p.pid = false := by
        simpa [TunnelManager.is_running, hp] using h
      have hq : alive' p.pid = false := by
        cases ha : alive' p.pid
        · rfl
        · exact absurd (hmono p.pid ha) (by simp [h'])
      simp [TunnelManager.is_running, hp, hq]

/-- A state whose handle has been cleared reports `stopped`. -/
theorem get_status_of_process_none (alive : Nat → Bool) (s : TMState)
    (h : s.process = none) : TunnelManager.get_status alive s = .stopped := by
  simp [TunnelManager.get_status, TunnelManager.is_running, h]

/-- A state that is not running reports `stopped`. -/
theorem get_status_not_running (alive : Nat → Bool) (s : TMState)
    (h : TunnelManager.is_running alive s = false) :
    TunnelManager.get_status alive s = .stopped := by
  unfold TunnelManager.get_status
  simp [h]

/-- Exhaustive case analysis of `stop`: it either reports an exception with
the handle cleared, succeeds with the handle cleared, or reports
`not_running` leaving the state untouched (and then the state was indeed
not running at entry). -/
theorem stop_cases (env : TunnelManager.StopEnv) (s : TMState) :
    (∃ m, TunnelManager.stop env s = (.error m, { s with process := none })) ∨
      TunnelManager.stop env s = (.stopped, { s with process := none }) ∨
      (TunnelManager.stop env s = (.not_running, s) ∧
        TunnelManager.is_running env.alive s = false) := by
  unfold TunnelManager.stop
  split
  · rename_i h
    exact Or.inr (Or.inr ⟨rfl, h⟩)
  · split
    · rename_i e heq
      exact Or.inl ⟨e, rfl⟩
    · split
      · split
        · rename_i e heq
          exact Or.inl ⟨e, rfl⟩
        · split
          · rename_i e heq
            exact Or.inl ⟨e, rfl⟩
          · exact Or.inr (Or.inl rfl)
      · exact Or.inr (Or.inl rfl)

/-- A stop environment in which the entry poll reports the pid alive and the
first wait-loop poll reports it exited; no OS call raises. -/
def sampleStopEnv : TunnelManager.StopEnv :=
  ⟨fun _ => true, .ok (), fun _ => false, .ok (), .ok ()⟩

/-- A supervisor state holding a handle with pid 5. -/
def sampleRunning : TMState := ⟨some ⟨5, ""⟩, none, none⟩

/-! ## Claims -/

/-- C7: a `stop()` call made while no process is running (no handle, or the
held process no longer alive) returns `{"status": "not_running"}`, raises
nothing (the embedding is a total function), and leaves the supervisor
state unchanged. -/
theorem claim_C7_stop_not_running_idempotent (env : TunnelManager.StopEnv) (s : TMState)
    (h : TunnelManager.is_running env.alive s = false) :
    TunnelManager.stop env s = (.not_running, s) := by
  unfold TunnelManager.stop
  simp [h]

/-- Witness for C7 at a concrete input: stopping the freshly initialised
manager (no handle held). -/
theorem claim_C7_witness :
    TunnelManager.stop sampleStopEnv TunnelManager.init = (.not_running, TunnelManager.init) :=
  claim_C7_stop_not_running_idempotent sampleStopEnv TunnelManager.init rfl

/-- C2: every `stop()` invocation ends with the supervisor no longer
reporting a running process: it returns `stopped` with the handle cleared,
or catches an exception, still clears the handle, and returns an `error`
result, or returns `not_running`; in all cases a later `get_status` under
any liveness oracle consistent with the entry one (dead pids stay dead)
reports `stopped`.  `stop` is a total function: no exception escapes. -/
theorem claim_C2_stop_fail_safe (env : TunnelManager.StopEnv) (s : TMState)
    (alive' : Nat → Bool)
    (hmono : ∀ pid, alive' pid = true → env.alive pid = true) :
    (((TunnelManager.stop env s).1 = .stopped ∧ (TunnelManager.stop env s).2.process = none) ∨
      (∃ m, (TunnelManager.stop env s).1 = .error m ∧
        (TunnelManager.stop env s).2.process = none) ∨
      ((TunnelManager.stop env s).1 = .not_running ∧ (TunnelManager.stop env s).2 = s)) ∧
    TunnelManager.get_status alive' (TunnelManager.stop env s).2 = .stopped := by
  rcases stop_cases env s with ⟨m, h⟩ | h | ⟨h, hrun⟩
  · rw [h]
    exact ⟨Or.inr (Or.inl ⟨m, rfl, rfl⟩), get_status_of_process_none _ _ rfl⟩
  · rw [h]
    exact ⟨Or.inl ⟨rfl, rfl⟩, get_status_of_process_none _ _ rfl⟩
  · rw [h]
    exact ⟨Or.inr (Or.inr ⟨rfl, rfl⟩),
      get_status_not_running _ _ (is_running_false_mono env.alive alive' s hmono hrun)⟩

/-- Witness for C2 at a concrete input: stopping a running pid-5 process
that exits on the first wait-loop poll. -/
theorem claim_C2_witness :
    (((TunnelManager.stop sampleStopEnv sampleRunning).1 = .stopped ∧
        (TunnelManager.stop sampleStopEnv sampleRunning).2.process = none) ∨
      (∃ m, (TunnelManager.stop sampleStopEnv sampleRunning).1 = .error m ∧
        (TunnelManager.stop sampleStopEnv sampleRunning).2.process = none) ∨
      ((TunnelManager.stop sampleStopEnv sampleRunning).1 = .not_running ∧
        (TunnelManager.stop sampleStopEnv sampleRunning).2 = sampleRunning)) ∧
    TunnelManager.get_status sampleStopEnv.alive
      (TunnelManager.stop sampleStopEnv sampleRunning).2 = .stopped :=
  claim_C2_stop_fail_safe sampleStopEnv sampleRunning sampleStopEnv.alive (fun _ h => h)

/-- C9: a `GET /start` request missing the `username` or the `appname`
query parameter is answered with HTTP 400 and body
`{"error": "Missing required parameters: username, appname"}`; the
supervisor state is untouched and `start` is never invoked. -/
theorem claim_C9_missing_params (env : ControlHTTPHandler.GetEnv)
    (username appname : Option String) (tm : TMState)
    (h : username = none ∨ appname = none) :
    ControlHTTPHandler.do_GET env "/start" username appname tm =
      ((400, .apiError "Missing required parameters: username, appname"), tm, false) := by
  unfold ControlHTTPHandler.do_GET
  rcases h with h | h <;> subst h <;> simp [pyFalsyStr]

/-- Witness for C9 at a concrete input: `/start` with `username` given and
`appname` absent. -/
theorem claim_C9_witness :
    ControlHTTPHandler.do_GET
      ⟨⟨fun _ => false, fun _ => false, .error "", false⟩, sampleStopEnv, fun _ => false⟩
      "/start" (some "alice") none TunnelManager.init =
      ((400, .apiError "Missing required parameters: username, appname"),
        TunnelManager.init, false) :=
  claim_C9_missing_params _ _ _ _ (Or.inr rfl)

/-- The `process` field, and hence `is_running`, is unaffected by assigning
the path fields. -/
theorem is_running_set_paths (alive : Nat → Bool) (s : TMState) (sp cp : Option String) :
    TunnelManager.is_running alive { s with singbox_path := sp, config_path := cp } =
      TunnelManager.is_running alive s := rfl

/-- A successful `start` stores a handle whose pid is the returned one. -/
theorem start_started_pid (env : TunnelManager.StartEnv) (s : TMState) (u a : String)
    (pid : Nat) (sp cp : String) (s1 : TMState)
    (h : TunnelManager.start env s u a = (.started pid sp cp, s1)) :
    pidOf s1.process = pid := by
  unfold TunnelManager.start at h
  split at h
  · simp at h
  · split at h
    · simp at h
    · split at h
      · simp at h
      · split at h
        · simp at h
        · split at h
          · simp at h
          · simp only [Prod.mk.injEq, Result.started.injEq] at h
            obtain ⟨⟨hpid, -, -⟩, hs⟩ := h
            rw [← hs]
            simpa [pidOf] using hpid

/-- C3: a `start` call made while the managed process is already running
returns `already_running` carrying the running pid and leaves the whole
supervisor state unchanged (no spawn); consequently two successive `start`
calls, the second made while the first spawn is still alive, report the
same pid. -/
theorem claim_C3_start_idempotent (env : TunnelManager.StartEnv) (s : TMState) (u a : String) :
    (TunnelManager.is_running env.alive s = true →
      TunnelManager.start env s u a = (.already_running (pidOf s.process), s)) ∧
    (∀ (pid : Nat) (sp cp : String) (s1 : TMState) (env2 : TunnelManager.StartEnv)
      (u2 a2 : String),
      TunnelManager.start env s u a = (.started pid sp cp, s1) →
      TunnelManager.is_running env2.alive s1 = true →
      TunnelManager.start env2 s1 u2 a2 = (.already_running pid, s1)) := by
  constructor
  · intro h
    unfold TunnelManager.start
    simp [h]
  · intro pid sp cp s1 env2 u2 a2 hstart hrun2
    have hp := start_started_pid env s u a pid sp cp s1 hstart
    unfold TunnelManager.start
    simp [hrun2, hp]

/-- A start environment seeing no running process, both files present, a
spawn returning pid 42, and the grace re-check reporting the child alive. -/
def sampleSpawnEnv : TunnelManager.StartEnv :=
  ⟨fun _ => false, fun _ => true, .ok ⟨42, ""⟩, true⟩

/-- A start environment whose entry poll reports every pid alive. -/
def sampleAliveEnv : TunnelManager.StartEnv :=
  ⟨fun _ => true, fun _ => true, .ok ⟨99, ""⟩, true⟩

/-- The state after `sampleSpawnEnv`'s successful start from `init`. -/
def sampleStarted : TMState :=
  ⟨some ⟨42, ""⟩, some (singbox_path_of "u" "a"), some (config_path_of "u" "a")⟩

/-- Witness for C3 at concrete inputs: both a direct `already_running`
return on a running state, and the same-pid guarantee after a successful
start from the initial state. -/
theorem claim_C3_witness :
    TunnelManager.start sampleAliveEnv sampleStarted "u2" "a2" =
      (.already_running 42, sampleStarted) ∧
    TunnelManager.start sampleAliveEnv sampleStarted "u3" "a3" =
      (.already_running 42, sampleStarted) :=
  ⟨(claim_C3_start_idempotent sampleAliveEnv sampleStarted "u2" "a2").1 rfl,
    (claim_C3_start_idempotent sampleSpawnEnv TunnelManager.init "u" "a").2 42
      (singbox_path_of "u" "a") (config_path_of "u" "a") sampleStarted sampleAliveEnv
      "u3" "a3" rfl rfl⟩

/-- C4: a `start(username, appname)` call whose derived executable path or
derived config path does not name an existing file returns the matching
`error` result with the path embedded in the message, stores no handle
(the `process` field is untouched), and a later `status()` under any
liveness oracle consistent with the entry one reports `stopped`. -/
theorem claim_C4_missing_paths (env : TunnelManager.StartEnv) (s : TMState) (u a : String)
    (alive' : Nat → Bool)
    (hrun : TunnelManager.is_running env.alive s = false)
    (hmono : ∀ pid, alive' pid = true → env.alive pid = true) :
    (env.path_exists (singbox_path_of u a) = false →
      TunnelManager.start env s u a =
        (.error ("sing-box not found: " ++ singbox_path_of u a),
         { s with singbox_path := some (singbox_path_of u a),
                  config_path := some (config_path_of u a) }) ∧
      (TunnelManager.start env s u a).2.process = s.process ∧
      TunnelManager.get_status alive' (TunnelManager.start env s u a).2 = .stopped) ∧
    (env.path_exists (singbox_path_of u a) = true →
      env.path_exists (config_path_of u a) = false →
      TunnelManager.start env s u a =
        (.error ("Config not found: " ++ config_path_of u a),
         { s with singbox_path := some (singbox_path_of u a),
                  config_path := some (config_path_of u a) }) ∧
      (TunnelManager.start env s u a).2.process = s.process ∧
      TunnelManager.get_status alive' (TunnelManager.start env s u a).2 = .stopped) := by
  have hrun' := is_running_false_mono env.alive alive' s hmono hrun
  constructor
  · intro hsp
    have he : TunnelManager.start env s u a =
        (.error ("sing-box not found: " ++ singbox_path_of u a),
         { s with singbox_path := some (singbox_path_of u a),
                  config_path := some (config_path_of u a) }) := by
      unfold TunnelManager.start
      simp [hrun, hsp]
    refine ⟨he, by rw [he], ?_⟩
    rw [he]
    exact get_status_not_running alive' _ (by rw [is_running_set_paths]; exact hrun')
  · intro hsp hcp
    have he : TunnelManager.start env s u a =
        (.error ("Config not found: " ++ config_path_of u a),
         { s with singbox_path := some (singbox_path_of u a),
                  config_path := some (config_path_of u a) }) := by
      unfold TunnelManager.start
      simp [hrun, hsp, hcp]
    refine ⟨he, by rw [he], ?_⟩
    rw [he]
    exact get_status_not_running alive' _ (by rw [is_running_set_paths]; exact hrun')

/-- A start environment in which no file exists. -/
def sampleMissingExe : TunnelManager.StartEnv :=
  ⟨fun _ => false, fun _ => false, .error "", false⟩

/-- A start environment in which only the executable exists (the config
file is absent). -/
def sampleMissingCfg : TunnelManager.StartEnv :=
  ⟨fun _ => false, fun x => x == singbox_path_of "u" "a", .error "", false⟩

/-- Witness for C4 at concrete inputs: a missing executable and a missing
config file, both from the initial state. -/
theorem claim_C4_witness :
    (TunnelManager.start sampleMissingExe TunnelManager.init "u" "a" =
        (.error ("sing-box not found: " ++ singbox_path_of "u" "a"),
         ⟨none, some (singbox_path_of "u" "a"), some (config_path_of "u" "a")⟩) ∧
      (TunnelManager.start sampleMissingExe TunnelManager.init "u" "a").2.process = none ∧
      TunnelManager.get_status (fun _ => false)
        (TunnelManager.start sampleMissingExe TunnelManager.init "u" "a").2 = .stopped) ∧
    (TunnelManager.start sampleMissingCfg TunnelManager.init "u" "a" =
        (.error ("Config not found: " ++ config_path_of "u" "a"),
         ⟨none, some (singbox_path_of "u" "a"), some (config_path_of "u" "a")⟩) ∧
      (TunnelManager.start sampleMissingCfg TunnelManager.init "u" "a").2.process = none ∧
      TunnelManager.get_status (fun _ => false)
        (TunnelManager.start sampleMissingCfg TunnelManager.init "u" "a").2 = .stopped) :=
  ⟨(claim_C4_missing_paths sampleMissingExe TunnelManager.init "u" "a" (fun _ => false)
      rfl (fun _ h => h)).1 rfl,
    (claim_C4_missing_paths sampleMissingCfg TunnelManager.init "u" "a" (fun _ => false)
      rfl (fun _ h => h)).2 (by decide) (by decide)⟩

/-- C5: if the spawned process has already exited when re-checked after the
grace interval, `start` returns an `error` whose message is
`"Process exited immediately. Error: "` followed by the captured stderr
truncated to its first 200 characters, and a later `status()` call (the
child being dead) reports `stopped`. -/
theorem claim_C5_immediate_exit (env : TunnelManager.StartEnv) (s : TMState) (u a : String)
    (p : Proc)
    (hrun : TunnelManager.is_running env.alive s = false)
    (hsp : env.path_exists (singbox_path_of u a) = true)
    (hcp : env.path_exists (config_path_of u a) = true)
    (hspawn : env.spawn = .ok p)
    (hgrace : env.aliveAfterGrace = false) :
    TunnelManager.start env s u a =
      (.error ("Process exited immediately. Error: " ++ p.stderrOut.take 200),
       { s with process := some p,
                singbox_path := some (singbox_path_of u a),
                config_path := some (config_path_of u a) }) ∧
    ∀ alive', alive' p.pid = false →
      TunnelManager.get_status alive' (TunnelManager.start env s u a).2 = .stopped := by
  have he : TunnelManager.start env s u a =
      (.error ("Process exited immediately. Error: " ++ p.stderrOut.take 200),
       { s with process := some p,
                singbox_path := some (singbox_path_of u a),
                config_path := some (config_path_of u a) }) := by
    unfold TunnelManager.start
    simp [hrun, hsp, hcp, hspawn, hgrace]
  refine ⟨he, fun alive' ha => ?_⟩
  rw [he]
  exact get_status_not_running alive' _ (by simp [TunnelManager.is_running, ha])

/-- A start environment whose spawn (pid 42, stderr "boom") exits within
the grace window. -/
def sampleCrashEnv : TunnelManager.StartEnv :=
  ⟨fun _ => false, fun _ => true, .ok ⟨42, "boom"⟩, false⟩

/-- Witness for C5 at a concrete input: the pid-42 child exits immediately
with stderr "boom". -/
theorem claim_C5_witness :
    TunnelManager.start sampleCrashEnv TunnelManager.init "u" "a" =
      (.error ("Process exited immediately. Error: " ++ "boom".take 200),
       ⟨some ⟨42, "boom"⟩, some (singbox_path_of "u" "a"), some (config_path_of "u" "a")⟩) ∧
    TunnelManager.get_status (fun _ => false)
      (TunnelManager.start sampleCrashEnv TunnelManager.init "u" "a").2 = .stopped :=
  ⟨(claim_C5_immediate_exit sampleCrashEnv TunnelManager.init "u" "a" ⟨42, "boom"⟩
      rfl rfl rfl rfl rfl).1,
    (claim_C5_immediate_exit sampleCrashEnv TunnelManager.init "u" "a" ⟨42, "boom"⟩
      rfl rfl rfl rfl rfl).2 (fun _ => false) rfl⟩

/-- A monitor-loop environment whose tunnel-liveness poll reports alive and
whose probe raises (connection refused). -/
def sampleCycleFail : AppMonitor.CycleEnv :=
  ⟨fun _ => true, .error "Connection refused", sampleStopEnv⟩

/-- A monitor-loop environment whose tunnel-liveness poll reports alive and
whose probe returns the body "pong". -/
def sampleCycleOk : AppMonitor.CycleEnv :=
  ⟨fun _ => true, .ok "pong", sampleStopEnv⟩

/-- C6: in the monitor loop with threshold 3, a successful probe resets the
counter to 0, a failed probe below the threshold increments it, a failed
probe reaching the threshold invokes `stop()` exactly once and resets the
counter to 0 regardless of the stop result; from a reset counter,
fail-fail-success makes no stop call and ends with the counter at 0, while
fail-fail-fail makes exactly one stop call and also ends at 0. -/
theorem claim_C6_health_threshold :
    (∀ (env : AppMonitor.CycleEnv) (tm : TMState) (m : MonitorState),
      TunnelManager.is_running env.alive tm = true →
      AppMonitor.check_app_alive env.probe = true →
      AppMonitor.monitor_cycle env tm m = (tm, { m with consecutive_failures := 0 }, 0)) ∧
    (∀ (env : AppMonitor.CycleEnv) (tm : TMState) (m : MonitorState),
      TunnelManager.is_running env.alive tm = true →
      AppMonitor.check_app_alive env.probe = false →
      m.consecutive_failures + 1 < m.max_failures →
      AppMonitor.monitor_cycle env tm m =
        (tm, { m with consecutive_failures := m.consecutive_failures + 1 }, 0)) ∧
    (∀ (env : AppMonitor.CycleEnv) (tm : TMState) (m : MonitorState),
      TunnelManager.is_running env.alive tm = true →
      AppMonitor.check_app_alive env.probe = false →
      m.max_failures ≤ m.consecutive_failures + 1 →
      AppMonitor.monitor_cycle env tm m =
        ((TunnelManager.stop env.stopEnv tm).2, { m with consecutive_failures := 0 }, 1)) ∧
    (∀ (e1 e2 e3 : AppMonitor.CycleEnv) (tm : TMState) (m : MonitorState),
      m.consecutive_failures = 0 → m.max_failures = 3 →
      TunnelManager.is_running e1.alive tm = true →
      TunnelManager.is_running e2.alive tm = true →
      TunnelManager.is_running e3.alive tm = true →
      AppMonitor.check_app_alive e1.probe = false →
      AppMonitor.check_app_alive e2.probe = false →
      AppMonitor.check_app_alive e3.probe = true →
      AppMonitor.run_cycles [e1, e2, e3] tm m =
        (tm, { m with consecutive_failures := 0 }, 0)) ∧
    (∀ (e1 e2 e3 : AppMonitor.CycleEnv) (tm : TMState) (m : MonitorState),
      m.consecutive_failures = 0 → m.max_failures = 3 →
      TunnelManager.is_running e1.alive tm = true →
      TunnelManager.is_running e2.alive tm = true →
      TunnelManager.is_running e3.alive tm = true →
      AppMonitor.check_app_alive e1.probe = false →
      AppMonitor.check_app_alive e2.probe = false →
      AppMonitor.check_app_alive e3.probe = false →
      AppMonitor.run_cycles [e1, e2, e3] tm m =
        ((TunnelManager.stop e3.stopEnv tm).2, { m with consecutive_failures := 0 }, 1)) := by
  refine ⟨?_, ?_, ?_, ?_, ?_⟩
  · intro env tm m hr hc
    simp [AppMonitor.monitor_cycle, hr, hc]
  · intro env tm m hr hc hth
    simp [AppMonitor.monitor_cycle, hr, hc, Nat.not_le.mpr hth]
  · intro env tm m hr hc hth
    simp [AppMonitor.monitor_cycle, hr, hc, hth]
  · intro e1 e2 e3 tm m hm0 hmax h1 h2 h3 p1 p2 p3
    simp [AppMonitor.run_cycles, AppMonitor.monitor_cycle, h1, h2, h3, p1, p2, p3, hm0, hmax]
  · intro e1 e2 e3 tm m hm0 hmax h1 h2 h3 p1 p2 p3
    simp [AppMonitor.run_cycles, AppMonitor.monitor_cycle, h1, h2, h3, p1, p2, p3, hm0, hmax]

/-- Witness for C6 at concrete inputs: a pid-5 tunnel, a probe answering
"pong" for success and raising for failure, starting from a fresh monitor. -/
theorem claim_C6_witness :
    AppMonitor.monitor_cycle sampleCycleOk sampleRunning AppMonitor.init =
      (sampleRunning, ⟨false, 0, 3⟩, 0) ∧
    AppMonitor.monitor_cycle sampleCycleFail sampleRunning AppMonitor.init =
      (sampleRunning, ⟨false, 1, 3⟩, 0) ∧
    AppMonitor.monitor_cycle sampleCycleFail sampleRunning ⟨false, 2, 3⟩ =
      ((TunnelManager.stop sampleStopEnv sampleRunning).2, ⟨false, 0, 3⟩, 1) ∧
    AppMonitor.run_cycles [sampleCycleFail, sampleCycleFail, sampleCycleOk]
        sampleRunning AppMonitor.init = (sampleRunning, ⟨false, 0, 3⟩, 0) ∧
    AppMonitor.run_cycles [sampleCycleFail, sampleCycleFail, sampleCycleFail]
        sampleRunning AppMonitor.init =
      ((TunnelManager.stop sampleStopEnv sampleRunning).2, ⟨false, 0, 3⟩, 1) :=
  ⟨claim_C6_health_threshold.1 sampleCycleOk sampleRunning AppMonitor.init rfl (by decide),
    claim_C6_health_threshold.2.1 sampleCycleFail sampleRunning AppMonitor.init rfl rfl
      (by decide),
    claim_C6_health_threshold.2.2.1 sampleCycleFail sampleRunning ⟨false, 2, 3⟩ rfl rfl
      (by decide),
    claim_C6_health_threshold.2.2.2.1 sampleCycleFail sampleCycleFail sampleCycleOk
      sampleRunning AppMonitor.init rfl rfl rfl rfl rfl rfl rfl (by decide),
    claim_C6_health_threshold.2.2.2.2 sampleCycleFail sampleCycleFail sampleCycleFail
      sampleRunning AppMonitor.init rfl rfl rfl rfl rfl rfl rfl rfl⟩

/-- C10: when the supervisor reports the tunnel not running, the monitor
cycle skips the probe and leaves the counter (and everything else)
unchanged; within a cycle the counter ends at 0 only if it was already 0,
the probe succeeded, or a stop was triggered; restarting a non-running
monitor resets it; hence a counter of 2 accumulated before the tunnel
stopped survives skipped cycles and a single new failed probe against a
later tunnel triggers a stop (fewer than 3 new consecutive failures). -/
theorem claim_C10_failures_carry_over :
    (∀ (env : AppMonitor.CycleEnv) (tm : TMState) (m : MonitorState),
      TunnelManager.is_running env.alive tm = false →
      AppMonitor.monitor_cycle env tm m = (tm, m, 0)) ∧
    (∀ (env : AppMonitor.CycleEnv) (tm : TMState) (m : MonitorState),
      (AppMonitor.monitor_cycle env tm m).2.1.consecutive_failures = 0 →
      m.consecutive_failures = 0 ∨ AppMonitor.check_app_alive env.probe = true ∨
        (AppMonitor.monitor_cycle env tm m).2.2 = 1) ∧
    (∀ m : MonitorState, m.is_running = false →
      (AppMonitor.start m).consecutive_failures = 0) ∧
    (∀ (e1 e2 : AppMonitor.CycleEnv) (tm tm2 : TMState) (m : MonitorState),
      m.max_failures = 3 → m.consecutive_failures = 2 →
      TunnelManager.is_running e1.alive tm = false →
      TunnelManager.is_running e2.alive tm2 = true →
      AppMonitor.check_app_alive e2.probe = false →
      AppMonitor.monitor_cycle e1 tm m = (tm, m, 0) ∧
      AppMonitor.monitor_cycle e2 tm2 m =
        ((TunnelManager.stop e2.stopEnv tm2).2, { m with consecutive_failures := 0 }, 1)) := by
  refine ⟨?_, ?_, ?_, ?_⟩
  · intro env tm m hr
    simp [AppMonitor.monitor_cycle, hr]
  · intro env tm m h0
    cases hr : TunnelManager.is_running env.alive tm
    · left
      simpa [AppMonitor.monitor_cycle, hr] using h0
    · cases hc : AppMonitor.check_app_alive env.probe
      · by_cases hth : m.max_failures ≤ m.consecutive_failures + 1
        · right; right
          simp [AppMonitor.monitor_cycle, hr, hc, hth]
        · left
          simp [AppMonitor.monitor_cycle, hr, hc, hth] at h0
      · right; left; rfl
  · intro m h
    simp [AppMonitor.start, h]
  · intro e1 e2 tm tm2 m hmax hm2 hr1 hr2 hc2
    constructor
    · simp [AppMonitor.monitor_cycle, hr1]
    · simp [AppMonitor.monitor_cycle, hr2, hc2, hmax, hm2]

/-- Witness for C10 at concrete inputs: a monitor holding 2 failures, one
skipped cycle against the stopped tunnel, then one failed probe against a
running pid-5 tunnel. -/
theorem claim_C10_witness :
    AppMonitor.monitor_cycle sampleCycleFail TunnelManager.init ⟨false, 2, 3⟩ =
      (TunnelManager.init, ⟨false, 2, 3⟩, 0) ∧
    AppMonitor.monitor_cycle sampleCycleFail sampleRunning ⟨false, 2, 3⟩ =
      ((TunnelManager.stop sampleStopEnv sampleRunning).2, ⟨false, 0, 3⟩, 1) :=
  claim_C10_failures_carry_over.2.2.2 sampleCycleFail sampleCycleFail
    TunnelManager.init sampleRunning ⟨false, 2, 3⟩ rfl rfl rfl rfl rfl

/-- Stripping whitespace from both ends yields a contiguous part of the
original list. -/
theorem pyStrip_part (l : List Char) : AppMonitor.pyStrip l <:+: l := by
  unfold AppMonitor.pyStrip
  have h1 : l.dropWhile Char.isWhitespace <:+ l := List.dropWhile_suffix _
  have h2 : (l.dropWhile Char.isWhitespace).reverse.dropWhile Char.isWhitespace <:+
      (l.dropWhile Char.isWhitespace).reverse := List.dropWhile_suffix _
  have h3 : ((l.dropWhile Char.isWhitespace).reverse.dropWhile Char.isWhitespace).reverse <+:
      l.dropWhile Char.isWhitespace := by
    have h4 := List.reverse_prefix.mpr h2
    simpa using h4
  exact List.IsInfix.trans h3.isInfix h1.isInfix

/-- `pyInStr` decides the contiguous-sublist relation. -/
theorem pyInStr_iff (needle hay : List Char) :
    AppMonitor.pyInStr needle hay = true ↔ needle <:+: hay := by
  unfold AppMonitor.pyInStr
  rw [List.any_eq_true]
  constructor
  · rintro ⟨t, ht, hp⟩
    exact List.infix_iff_prefix_suffix.mpr
      ⟨t, List.isPrefixOf_iff_prefix.mp hp, (List.mem_tails t hay).mp ht⟩
  · intro h
    obtain ⟨t, hpp, hs⟩ := List.infix_iff_prefix_suffix.mp h
    exact ⟨t, (List.mem_tails t hay).mpr hs, List.isPrefixOf_iff_prefix.mpr hpp⟩

/-- The first disjunct of the probe check is subsumed by the second: if the
stripped, lowered body equals "pong" then the lowered body contains it. -/
theorem strip_eq_imp_contains (data : List Char)
    (h : AppMonitor.pyLower (AppMonitor.pyStrip data) = "pong".toList) :
    AppMonitor.pyInStr "pong".toList (AppMonitor.pyLower data) = true := by
  rw [pyInStr_iff, ← h]
  exact List.IsInfix.map Char.toLower (pyStrip_part data)

/-- C8: a health probe counts as success if and only if the response body,
lowered case-insensitively, contains the token "pong" (equality after
stripping is a special case of containment); any exception raised during
the probe (network error, timeout, HTTP error) counts as failure, and the
check itself is a total function — it never raises. -/
theorem claim_C8_probe_pong (probe : Except String String) :
    (∀ e, probe = .error e → AppMonitor.check_app_alive probe = false) ∧
    (∀ data, probe = .ok data →
      (AppMonitor.check_app_alive probe = true ↔
        AppMonitor.pyInStr "pong".toList (AppMonitor.pyLower data.toList) = true)) := by
  constructor
  · intro e he
    subst he
    rfl
  · intro data hd
    subst hd
    unfold AppMonitor.check_app_alive
    constructor
    · intro h
      rw [Bool.or_eq_true] at h
      rcases h with h1 | h2
      · exact strip_eq_imp_contains data.toList (by simpa using h1)
      · exact h2
    · intro h
      rw [Bool.or_eq_true]
      exact Or.inr h

/-- Witness for C8 at concrete inputs: a timed-out probe and a body
containing "PoNg" amid other text. -/
theorem claim_C8_witness :
    AppMonitor.check_app_alive (.error "timed out") = false ∧
    (AppMonitor.check_app_alive (.ok "x PoNg y") = true ↔
      AppMonitor.pyInStr "pong".toList (AppMonitor.pyLower "x PoNg y".toList) = true) :=
  ⟨(claim_C8_probe_pong (.error "timed out")).1 "timed out" rfl,
    (claim_C8_probe_pong (.ok "x PoNg y")).2 "x PoNg y" rfl⟩
